import Mathlib

/-!
# Verification of the CiderWS WebSocket client

Shallow embedding of the CiderWS client (`ciderws.js`, `src/classes.js`,
`src/errors.js`).  JavaScript numbers are modelled as `Int` (all payload
values relevant here are integral); absent (`undefined`) object fields are
modelled as `none`; code paths that throw are modelled with `Except JSThrown`,
where an `Except.error` result means the exception escapes the modelled
function uncaught.
-/

namespace CiderWS

/-- Errors a JavaScript execution can throw while running the client code.
`superCalledTwice` and `superNotCalled` are the ReferenceErrors the runtime
raises when a derived-class constructor calls `super` twice / returns without
calling it. -/
inductive JSThrown where
  | jsonSyntaxError
  | typeErrorUndefined
  | typeErrorNull
  | superCalledTwice
  | superNotCalled
  | websocketConnectionError (msg : String)
  | missingParameterError (label : String)
  | parameterRangeError (label : String) (lo hi : Int)
  | parameterTypeMismatchError (label ty : String)
  | genericError (msg : String)
  deriving DecidableEq, Repr

/-- Decision procedure for equality of `Except` results. -/
instance exceptDecEq {ε α : Type} [DecidableEq ε] [DecidableEq α] :
    DecidableEq (Except ε α) := fun x y =>
  match x, y with
  | Except.ok a, Except.ok b =>
    if h : a = b then isTrue (by rw [h]) else isFalse (fun hh => by cases hh; exact h rfl)
  | Except.error a, Except.error b =>
    if h : a = b then isTrue (by rw [h]) else isFalse (fun hh => by cases hh; exact h rfl)
  | Except.ok _, Except.error _ => isFalse (fun hh => by cases hh)
  | Except.error _, Except.ok _ => isFalse (fun hh => by cases hh)

/-- Fuel-driven digit rendering (fuel-based so the kernel can evaluate it). -/
def digitCharsAux : Nat → Nat → List Char
  | 0, _ => []
  | fuel + 1, n =>
    if n < 10 then [Char.ofNat (48 + n)]
    else digitCharsAux fuel (n / 10) ++ [Char.ofNat (48 + n % 10)]

/-- Decimal digit characters of a natural number, most significant first:
the JavaScript `String(n)` rendering of a nonnegative integer. -/
def digitChars (n : Nat) : List Char := digitCharsAux (n + 1) n

/-- The JavaScript `String(i)` rendering of an integer. -/
def intChars (i : Int) : List Char :=
  if i < 0 then '-' :: digitChars i.natAbs else digitChars i.natAbs

/-- The JavaScript `JSON.stringify` rendering of a boolean. -/
def boolChars : Bool → List Char
  | true => ['t', 'r', 'u', 'e']
  | false => ['f', 'a', 'l', 's', 'e']

/-- `String(x)` for a possibly-absent numeric field (`String(undefined)` is
`"undefined"`). -/
def jsStringOfOptInt : Option Int → String
  | none => "undefined"
  | some i => String.mk (intChars i)

/-- One step of JavaScript `String.prototype.replace` with a nonempty string
pattern: replace the leftmost occurrence of `pat`, if any. -/
def replaceFirstAux (pat repl : List Char) : List Char → List Char
  | [] => []
  | c :: rest =>
    if pat.isPrefixOf (c :: rest) then repl ++ (c :: rest).drop pat.length
    else c :: replaceFirstAux pat repl rest

/-- JavaScript `s.replace(pat, repl)` with a string (non-regex) pattern:
replaces only the first occurrence; an empty pattern matches at position 0. -/
def replaceFirst (s pat repl : List Char) : List Char :=
  if pat = [] then repl ++ s else replaceFirstAux pat repl s

/-- String-level wrapper for `replaceFirst`. -/
def jsReplaceFirst (s pat repl : String) : String :=
  String.mk (replaceFirst s.data pat.data repl.data)

/-- `new RegExp("i=[0-9]+").exec(s)`: scan left to right for the literal
characters `i=` followed by at least one decimal digit; on success return the
matched substring (`i=` plus the maximal run of digits), else `none` (the
JavaScript `null`). -/
def execI : List Char → Option (List Char)
  | [] => none
  | c :: rest =>
    match c, rest with
    | 'i', '=' :: rest2 =>
      let ds := rest2.takeWhile Char.isDigit
      if ds.isEmpty then execI rest else some ('i' :: '=' :: ds)
    | _, _ => execI rest

/-- The possible shapes of the `url` field of an inbound payload: absent
(`undefined`), `null`, a plain string, or an object carrying an `appleMusic`
property (itself possibly absent). -/
inductive JSUrl where
  | undef
  | null
  | str (s : String)
  | obj (appleMusic : Option String)
  deriving DecidableEq, Repr

/-- The `artwork` object of an inbound payload. -/
structure Artwork where
  url : Option String
  width : Option Int
  height : Option Int
  deriving DecidableEq, Repr

/-- The fields of an inbound payload object that the entity constructors in
`src/classes.js` read.  A `none` models an absent (`undefined`) field. -/
structure Payload where
  name : Option String
  artistName : Option String
  albumName : Option String
  artwork : Option Artwork
  trackNumber : Option Int
  url : JSUrl
  songId : Option String
  durationInMillis : Option Int
  genreNames : Option (List String)
  status : Bool
  shuffleMode : Int
  repeatMode : Int
  volume : Int
  autoplayEnabled : Bool
  startTime : Option Int
  endTime : Option Int
  remainingTime : Option Int
  currentPlaybackProgress : Option Int
  deriving DecidableEq, Repr

/-- The `Song` entity of `src/classes.js`. -/
structure Song where
  title : Option String
  artist : Option String
  album : Option String
  artwork : String
  trackNumber : Option Int
  url : Option String
  id : String
  duration : Option Int
  genre : Option (List String)
  deriving DecidableEq, Repr

/-- JavaScript truthiness of a possibly-absent string field (`undefined` and
the empty string are falsy). -/
def truthyStr : Option String → Bool
  | none => false
  | some s => !(s == "")

/-- The value `this.url` ends up with (`src/classes.js`, lines 28-32):
`typeof null` and `typeof` an object are both `"object"`, so those take the
`appleMusic` branch (`null` being falsy yields `""`); a string or `undefined`
is stored as-is. -/
def songUrlField : JSUrl → Option String
  | JSUrl.obj am => am
  | JSUrl.null => some ""
  | JSUrl.str s => some s
  | JSUrl.undef => none

/-- The identifier computation of the `Song` constructor (`src/classes.js`,
lines 34-38): a truthy `songId` is used directly; otherwise, when the `url`
field is a string, `exec` runs the `i=[0-9]+` pattern over it and the match is
indexed — a TypeError when `exec` returned `null` — and stripped of its `i=`
prefix; for a non-string `url` the identifier is the empty string. -/
def songIdField (d : Payload) : Except JSThrown String :=
  if truthyStr d.songId then Except.ok (d.songId.getD "")
  else
    match d.url with
    | JSUrl.str s =>
      match execI s.data with
      | none => Except.error JSThrown.typeErrorNull
      | some m => Except.ok (String.mk (replaceFirst m ['i', '='] []))
    | _ => Except.ok ""

/-- The `Song` constructor (`src/classes.js`, lines 18-44), on an already
`data`-unwrapped payload.  It throws where the JavaScript throws: reading
`data.artwork.url` when `artwork` (or its `url`) is absent, and inside
`songIdField` when the identifier extraction indexes a `null` match. -/
def mkSong (d : Payload) : Except JSThrown Song :=
  match d.artwork with
  | none => Except.error JSThrown.typeErrorUndefined
  | some a =>
    match a.url with
    | none => Except.error JSThrown.typeErrorUndefined
    | some u =>
      let artworkStr := jsReplaceFirst (jsReplaceFirst u "\x7bw\x7d"
        (jsStringOfOptInt a.width)) "\x7bh\x7d" (jsStringOfOptInt a.height)
      match songIdField d with
      | Except.error e => Except.error e
      | Except.ok idVal =>
        Except.ok ⟨d.name, d.artistName, d.albumName, artworkStr, d.trackNumber,
          songUrlField d.url, idVal, d.durationInMillis, d.genreNames⟩

/-- The `States` entity of `src/classes.js`. -/
structure States where
  isPlaying : Bool
  isShuffling : Bool
  repeatMode : Int
  volume : Int
  autoplay : Bool
  deriving DecidableEq, Repr

/-- The `States` constructor (`src/classes.js`, lines 58-67). -/
def mkStates (d : Payload) : States :=
  ⟨d.status, d.shuffleMode == 1, d.repeatMode, d.volume, d.autoplayEnabled⟩

/-- The `PlaybackData` entity of `src/classes.js`. -/
structure PlaybackData where
  isPlaying : Bool
  startTime : Option Int
  endTime : Option Int
  remainingTime : Option Int
  elapsedTime : Option Int
  progress : Option Int
  deriving DecidableEq, Repr

/-- The `PlaybackData` constructor (`src/classes.js`, lines 82-92).
`Math.round` is the identity on the integral values modelled here; arithmetic
involving an absent operand yields `NaN`, modelled as `none`. -/
def mkPlaybackData (d : Payload) : PlaybackData :=
  ⟨d.status, d.startTime, d.endTime, d.remainingTime,
    match d.durationInMillis, d.remainingTime with
    | some a, some b => some (a - b)
    | _, _ => none,
    d.currentPlaybackProgress⟩

/-- `JSON.stringify` of a `States` object: its five fields are always
assigned (never `undefined`-valued in this model), in constructor order. -/
def stringifyStatesChars (s : States) : List Char :=
  ("\x7b\"isPlaying\":".data) ++ boolChars s.isPlaying ++
  (",\"isShuffling\":".data) ++ boolChars s.isShuffling ++
  (",\"repeatMode\":".data) ++ intChars s.repeatMode ++
  (",\"volume\":".data) ++ intChars s.volume ++
  (",\"autoplay\":".data) ++ boolChars s.autoplay ++ ("\x7d".data)

/-- String form of `stringifyStatesChars`. -/
def stringifyStates (s : States) : String := String.mk (stringifyStatesChars s)

/-- `JSON.stringify(this.states)` where `this.states` may still be
`undefined`: `JSON.stringify(undefined)` is `undefined`, modelled as `none`. -/
def stringifyOptStates : Option States → Option String
  | none => none
  | some s => some (stringifyStates s)

/-- A successfully JSON-parsed inbound frame: its `type` tag, its top-level
`message` field (used by the `generic` branch), and its payload fields, which
may sit either under a one-level `data` envelope or at the top level. -/
structure Frame where
  type : String
  message : Option String
  data : Option Payload
  top : Payload
  deriving DecidableEq, Repr

/-- The payload the entity constructors see after their
`if (data.data) data = data.data` unwrap (an object is always truthy). -/
def Frame.payload (f : Frame) : Payload := f.data.getD f.top

/-- The events `handleMessage` can emit on the shared emitter. -/
inductive Event where
  | raw (tag : String)
  | songUpdate (s : Song)
  | statesUpdate (s : States)
  | playbackUpdate (p : PlaybackData)
  | ready
  | waiterRejected (tag : String)
  deriving DecidableEq, Repr

/-- The per-session mutable snapshot fields of `CiderWS`. -/
structure SessionState where
  currentSong : Option Song
  states : Option States
  deriving DecidableEq, Repr

/-- The state right after construction: `this.currentSong` and `this.states`
are both `undefined`. -/
def initialSession : SessionState := ⟨none, none⟩

/-- JavaScript `x > 0` for a possibly-absent number (`undefined > 0` is
false). -/
def durGt0 : Option Int → Bool
  | none => false
  | some n => decide (0 < n)

/-- The song-novelty test of `handleMessage` (`ciderws.js`, line 76):
`this.currentSong == undefined || this.currentSong.id != newSong.id`. -/
def songCondB (st : SessionState) (ns : Song) : Bool :=
  match st.currentSong with
  | none => true
  | some cs => cs.id != ns.id

/-- The states-change test of `handleMessage` (`ciderws.js`, line 80):
`JSON.stringify(this.states) != JSON.stringify(newStat)`. -/
def statCondB (st : SessionState) (ns : States) : Bool :=
  stringifyOptStates st.states != stringifyOptStates (some ns)

/-- `handleMessage` (`ciderws.js`, lines 64-95).  Its input is the outcome of
`JSON.parse(event.data)`: `none` when the frame text is not valid JSON, in
which case `JSON.parse` throws a SyntaxError that nothing in the handler
catches.  On success it returns the updated session snapshot and the events
emitted, in emission order; an `Except.error` means an exception escaped the
handler (events emitted before the throw are not retained by this model). -/
def handleMessage (parsed : Option Frame) (st : SessionState) :
    Except JSThrown (SessionState × List Event) :=
  match parsed with
  | none => Except.error JSThrown.jsonSyntaxError
  | some d =>
    if d.type = "playbackStateUpdate" then
      match mkSong d.payload with
      | Except.error e => Except.error e
      | Except.ok newSong =>
        let newStat := mkStates d.payload
        Except.ok
          (⟨if songCondB st newSong then some newSong else st.currentSong,
            if statCondB st newStat then some newStat else st.states⟩,
            [Event.raw d.type] ++
              (if songCondB st newSong then
                (if durGt0 newSong.duration then [Event.songUpdate newSong] else [])
              else []) ++
              (if statCondB st newStat then [Event.statesUpdate newStat] else []) ++
              [Event.playbackUpdate (mkPlaybackData d.payload)])
    else if d.type = "generic" then
      Except.ok (st,
        [Event.raw d.type] ++
          (if d.message = some "Thanks for identifying!" then [Event.ready] else []))
    else
      Except.ok (st, [Event.raw d.type])

/-- An outbound command envelope: the `action` tag plus the numeric fields the
commands verified here use (`data` for seek, `repeat` for set-repeat). -/
structure OutMsg where
  action : String
  dataField : Option Int
  repeatField : Option Int
  deriving DecidableEq, Repr

/-- An outbound envelope with only an `action` tag. -/
def mkMsg (a : String) : OutMsg := ⟨a, none, none⟩

/-- Result of executing `new WebsocketConnectionError(status)`
(`src/errors.js`, lines 112-125).  The `switch` has no `break` between its
cases, so for status 0 and 2 control falls through to the next case and calls
`super` a second time, which the runtime rejects with a ReferenceError; only
status 3 yields the intended error object; any other status reaches `default`
without ever calling `super`, also a ReferenceError. -/
def websocketConnectionErrorThrown (status : Int) : JSThrown :=
  if status = 0 then JSThrown.superCalledTwice
  else if status = 2 then JSThrown.superCalledTwice
  else if status = 3 then
    JSThrown.websocketConnectionError "Websocket has been closed or failed to connect"
  else JSThrown.superNotCalled

/-- `connectionCheck()` (`ciderws.js`, lines 46-48): throw whatever
constructing `WebsocketConnectionError(readyState)` produces unless the
socket's readyState is 1 (OPEN). -/
def connectionCheck (readyState : Int) : Except JSThrown Unit :=
  if readyState ≠ 1 then Except.error (websocketConnectionErrorThrown readyState)
  else Except.ok ()

/-- The range part of `paramCheck` (`ciderws.js`, lines 53-59), for an
argument that is a number (the undefined/type checks cannot fire then). -/
def paramCheckRange (param : Int) (label : String) (lo hi : Int) :
    Except JSThrown Unit :=
  if ¬(lo ≤ param ∧ param ≤ hi) then Except.error (JSThrown.parameterRangeError label lo hi)
  else Except.ok ()

/-- `quit()` (`ciderws.js`, lines 130-136), as a representative command
method: connection check, then a single send; a throw from the check escapes
before the send. -/
def quit (readyState : Int) : Except JSThrown (List OutMsg) :=
  match connectionCheck readyState with
  | Except.error e => Except.error e
  | Except.ok _ => Except.ok [mkMsg "quit"]

/-- `seek(time, adjust)` (`ciderws.js`, lines 341-355).  For an integral
`time`, `!parseFloat(time)` is true exactly when `time` is 0;
`parseInt(time / 1000)` truncates the quotient toward zero. -/
def seek (readyState : Int) (time : Int) (adjust : Bool) :
    Except JSThrown (List OutMsg) :=
  match connectionCheck readyState with
  | Except.error e => Except.error e
  | Except.ok _ =>
    if time = 0 then Except.error (JSThrown.parameterTypeMismatchError "time" "float")
    else
      let t := if adjust then Int.tdiv time 1000 else time
      Except.ok [OutMsg.mk "seek" (some t) none]

/-- `setRepeat(mode)` (`ciderws.js`, lines 397-407): connection check, range
check, whole-number check, then a single `set-repeat` send carrying the target
mode.  It reads no current state and sends no cycle command. -/
def setRepeat (readyState : Int) (mode : Int) : Except JSThrown (List OutMsg) :=
  match connectionCheck readyState with
  | Except.error e => Except.error e
  | Except.ok _ =>
    match paramCheckRange mode "mode" 0 2 with
    | Except.error e => Except.error e
    | Except.ok _ =>
      if mode % 1 ≠ 0 then
        Except.error (JSThrown.parameterTypeMismatchError "value" "whole number")
      else Except.ok [OutMsg.mk "set-repeat" none (some mode)]

/-- `cycleRepeat()` (`ciderws.js`, lines 385-391): the cycle command. -/
def cycleRepeat (readyState : Int) : Except JSThrown (List OutMsg) :=
  match connectionCheck readyState with
  | Except.error e => Except.error e
  | Except.ok _ => Except.ok [mkMsg "repeat"]

/-- Number of repeat-cycle commands (`action: "repeat"`) in a batch of sends. -/
def cycleCommandCount (msgs : List OutMsg) : Nat :=
  (msgs.filter (fun m => m.action = "repeat")).length

/-- The one-shot waiters currently registered on the emitter via
`evem.once(tag, ...)` by the asynchronous query methods. -/
structure WaiterReg where
  pending : List String
  deriving DecidableEq, Repr

/-- `getQueue()` (`ciderws.js`, lines 279-304): connection check, send the
`get-queue` command, then register a one-shot waiter for the next frame of
type `"queue"`.  Returns the updated registry and the messages sent. -/
def getQueueCall (readyState : Int) (w : WaiterReg) :
    Except JSThrown (WaiterReg × List OutMsg) :=
  match connectionCheck readyState with
  | Except.error e => Except.error e
  | Except.ok _ => Except.ok (⟨w.pending ++ ["queue"]⟩, [mkMsg "get-queue"])

/-- The socket close handler (`ciderws.js`, line 113,
`this.socket.onclose = (event) => \x7b evem.emit("close"), event; \x7d`):
it emits only the raw `"close"` event; one-shot waiters registered for other
tags are neither notified, rejected, nor removed. -/
def oncloseHandler (w : WaiterReg) : WaiterReg × List Event :=
  (w, [Event.raw "close"])

/-- One structured lyric line as returned by the `lyrics` frame. -/
structure LyricLine where
  startTime : Option Int
  endTime : Option Int
  line : String
  translation : Option String
  deriving DecidableEq, Repr

/-- JavaScript `String.prototype.trim`: drop whitespace from both ends. -/
def jsTrim (s : String) : String :=
  String.mk (((s.data.dropWhile Char.isWhitespace).reverse.dropWhile
    Char.isWhitespace).reverse)

/-- JavaScript `String.prototype.startsWith` with a string argument. -/
def jsStartsWith (s pre : String) : Bool :=
  pre.data.isPrefixOf s.data

/-- One iteration of the flattening loop of `getLyrics()` (`ciderws.js`,
lines 481-485): trim the line, skip it when it starts with `"lrc"` or is
empty, otherwise append it plus a newline to the accumulator. -/
def lyricStep (full : String) (l : LyricLine) : String :=
  let line := jsTrim l.line
  if jsStartsWith line "lrc" || line == "" then full else full ++ line ++ "\n"

/-- The flattening of `getLyrics()` (`ciderws.js`, lines 478-487). -/
def getLyricsText (lyrics : List LyricLine) : String :=
  lyrics.foldl lyricStep ""

/-! ## Concrete sample inputs

Inbound payloads, frames and their decoded values used by the concrete
witness and counterexample theorems below. -/

/-- A representative well-formed `playbackStateUpdate` payload. -/
def samplePayload : Payload :=
  { name := some "Test", artistName := some "Artist", albumName := some "Album",
    artwork := some ⟨some "https://art/\x7bw\x7dx\x7bh\x7d.jpg", some 300, some 300⟩,
    trackNumber := some 1,
    url := JSUrl.str "https://music.apple.com/de/album/x/123?i=456789",
    songId := none, durationInMillis := some 200000, genreNames := some ["Pop"],
    status := true, shuffleMode := 0, repeatMode := 0, volume := 1,
    autoplayEnabled := false, startTime := some 0, endTime := some 200000,
    remainingTime := some 100000, currentPlaybackProgress := some 0 }

/-- Like `samplePayload` but with an explicit song identifier `"111"`. -/
def payloadId111 : Payload := { samplePayload with songId := some "111" }

/-- Identifier `"222"` and a zero (placeholder) duration. -/
def payloadId222Dur0 : Payload :=
  { samplePayload with songId := some "222", durationInMillis := some 0 }

/-- Identifier `"222"` and a positive duration. -/
def payloadId222 : Payload := { samplePayload with songId := some "222" }

/-- A payload whose `url` is a string in which `i=[0-9]+` does not occur and
which carries no explicit `songId`. -/
def payloadNoMatch : Payload :=
  { samplePayload with url := JSUrl.str "https://music.apple.com/de/album/x" }

/-- A frame of the given payload under a one-level `data` envelope. -/
def frameOf (p : Payload) : Frame := ⟨"playbackStateUpdate", none, some p, p⟩

/-- The `Song` the sample payloads decode to, up to identifier and duration. -/
def sampleSong (id : String) (dur : Option Int) : Song :=
  ⟨some "Test", some "Artist", some "Album", "https://art/300x300.jpg", some 1,
    some "https://music.apple.com/de/album/x/123?i=456789", id, dur, some ["Pop"]⟩

/-- The `States` the sample payloads decode to. -/
def sampleStates : States := ⟨true, false, 0, 1, false⟩

/-- The `PlaybackData` the sample payloads decode to (they differ only in the
derived elapsed time). -/
def samplePlayback (elapsed : Int) : PlaybackData :=
  ⟨true, some 0, some 200000, some 100000, some elapsed, some 0⟩

/-- The session snapshot after handling `frameOf payloadId111` from scratch. -/
def sessionAfter111 : SessionState :=
  ⟨some (sampleSong "111" (some 200000)), some sampleStates⟩

/-- The events emitted while handling `frameOf payloadId111` from scratch. -/
def evsAfter111 : List Event :=
  [Event.raw "playbackStateUpdate",
    Event.songUpdate (sampleSong "111" (some 200000)),
    Event.statesUpdate sampleStates,
    Event.playbackUpdate (samplePlayback 100000)]

/-- The session snapshot after `frameOf payloadId222` follows `payloadId111`. -/
def sessionAfter222 : SessionState :=
  ⟨some (sampleSong "222" (some 200000)), some sampleStates⟩

/-- The events emitted while handling `frameOf payloadId222` from
`sessionAfter111` (the states are unchanged, so no states event). -/
def evsAfter222 : List Event :=
  [Event.raw "playbackStateUpdate",
    Event.songUpdate (sampleSong "222" (some 200000)),
    Event.playbackUpdate (samplePlayback 100000)]

/-- The session snapshot after the zero-duration `frameOf payloadId222Dur0`
replaces the cached song without firing a song event. -/
def sessionStale : SessionState :=
  ⟨some (sampleSong "222" (some 0)), some sampleStates⟩

/-- The events emitted while handling `frameOf payloadId222Dur0` from
`sessionAfter111`: no song event (zero duration) and no states event. -/
def evsStale1 : List Event :=
  [Event.raw "playbackStateUpdate", Event.playbackUpdate (samplePlayback (-100000))]

/-- The events emitted while handling `frameOf payloadId222` from
`sessionStale`: the identifier matches the (stale) cache, so no song event. -/
def evsStale2 : List Event :=
  [Event.raw "playbackStateUpdate", Event.playbackUpdate (samplePlayback 100000)]

/-- Decimal value of a digit string; a proof-side left inverse of
`digitChars`. -/
def digitsVal (ds : List Char) : Nat :=
  ds.foldl (fun a c => 10 * a + (c.toNat - 48)) 0

/-! ## Supporting lemmas -/

/-- Data of a string concatenation. -/
lemma stringAppend_data (a b : String) : (a ++ b).data = a.data ++ b.data := rfl

/-- Appending the empty string is the identity. -/
lemma stringAppend_empty (a : String) : a ++ "" = a :=
  String.ext (by simp [stringAppend_data])

/-- String concatenation is associative. -/
lemma stringAppend_assoc (a b c : String) : a ++ b ++ c = a ++ (b ++ c) :=
  String.ext (by simp [stringAppend_data])

/-- Unfolding `String.join` on a cons. -/
lemma stringJoin_cons (s : String) (rest : List String) :
    String.join (s :: rest) = s ++ String.join rest := by
  apply String.ext
  simp [String.join_eq, stringAppend_data]

/-- A line that is blank after trimming or starts with the marker is
dropped. -/
lemma lyricStep_drop (full : String) (l : LyricLine)
    (h : (jsStartsWith (jsTrim l.line) "lrc" || jsTrim l.line == "") = true) :
    lyricStep full l = full := by
  simp only [lyricStep, h, if_true]

/-- A kept line is appended with a trailing newline. -/
lemma lyricStep_keep (full : String) (l : LyricLine)
    (h : (jsStartsWith (jsTrim l.line) "lrc" || jsTrim l.line == "") = false) :
    lyricStep full l = full ++ jsTrim l.line ++ "\n" := by
  simp only [lyricStep, h]
  simp

/-- The lyric fold with an arbitrary accumulator equals the accumulator
followed by the filtered, newline-joined kept lines. -/
lemma getLyricsText_go (lyrics : List LyricLine) (acc : String) :
    lyrics.foldl lyricStep acc =
    acc ++ String.join (((lyrics.map (fun l => jsTrim l.line)).filter
      (fun line => !(jsStartsWith line "lrc" || line == ""))).map
        (fun line => line ++ "\n")) := by
  induction lyrics generalizing acc with
  | nil => simp [String.join, stringAppend_empty]
  | cons l rest ih =>
    rw [List.foldl_cons, List.map_cons, List.filter_cons]
    by_cases h : (jsStartsWith (jsTrim l.line) "lrc" || jsTrim l.line == "") = true
    · rw [lyricStep_drop acc l h]
      have hp : (!(jsStartsWith (jsTrim l.line) "lrc" || jsTrim l.line == "")) = false := by
        simp [h]
      rw [hp]
      simp only [Bool.false_eq_true, if_false]
      exact ih acc
    · have hb : (jsStartsWith (jsTrim l.line) "lrc" || jsTrim l.line == "") = false := by
        simp only [Bool.not_eq_true] at h; exact h
      rw [lyricStep_keep acc l hb]
      have hp : (!(jsStartsWith (jsTrim l.line) "lrc" || jsTrim l.line == "")) = true := by
        simp [hb]
      rw [hp]
      simp only [if_true, List.map_cons]
      rw [stringJoin_cons, ih]
      rw [stringAppend_assoc, stringAppend_assoc, stringAppend_assoc]

/-- The fuel argument of `digitCharsAux` is irrelevant once it exceeds the
value being printed. -/
lemma digitCharsAux_congr : ∀ (f1 f2 n : Nat), n < f1 → n < f2 →
    digitCharsAux f1 n = digitCharsAux f2 n := by
  intro f1
  induction f1 with
  | zero => intro f2 n h1 _; exact absurd h1 (Nat.not_lt_zero n)
  | succ f ih =>
    intro f2 n h1 h2
    cases f2 with
    | zero => exact absurd h2 (Nat.not_lt_zero n)
    | succ g =>
      simp only [digitCharsAux]
      by_cases hn : n < 10
      · rw [if_pos hn, if_pos hn]
      · have hd : n / 10 < n := Nat.div_lt_self (by omega) (by omega)
        rw [if_neg hn, if_neg hn, ih g (n / 10) (by omega) (by omega)]

/-- The intended recursion equation of `digitChars`. -/
lemma digitChars_eq (n : Nat) :
    digitChars n = if n < 10 then [Char.ofNat (48 + n)]
      else digitChars (n / 10) ++ [Char.ofNat (48 + n % 10)] := by
  by_cases hn : n < 10
  · rw [if_pos hn]
    unfold digitChars digitCharsAux
    rw [if_pos hn]
  · have hd : n / 10 < n := Nat.div_lt_self (by omega) (by omega)
    rw [if_neg hn]
    unfold digitChars
    conv_lhs => rw [digitCharsAux]
    rw [if_neg hn]
    congr 1
    exact digitCharsAux_congr n (n / 10 + 1) (n / 10) (by omega) (by omega)

/-- Code point of a digit character. -/
lemma char_toNat_digit (m : Nat) (h : m < 10) : (Char.ofNat (48 + m)).toNat = 48 + m := by
  interval_cases m <;> decide

/-- Folding one more digit onto a digit string. -/
lemma digitsVal_append (ds : List Char) (c : Char) :
    digitsVal (ds ++ [c]) = 10 * digitsVal ds + (c.toNat - 48) := by
  simp [digitsVal, List.foldl_append]

/-- Decimal printing followed by reading is the identity. -/
lemma digitsVal_digitChars (n : Nat) : digitsVal (digitChars n) = n := by
  induction n using Nat.strong_induction_on with
  | _ n ih =>
    rw [digitChars_eq]
    by_cases hn : n < 10
    · rw [if_pos hn]
      simp [digitsVal, char_toNat_digit n hn]
    · have hd : n / 10 < n := Nat.div_lt_self (by omega) (by omega)
      rw [if_neg hn, digitsVal_append, ih (n / 10) hd, char_toNat_digit (n % 10) (by omega)]
      omega

/-- Decimal printing of naturals is injective. -/
lemma digitChars_inj {m n : Nat} (h : digitChars m = digitChars n) : m = n := by
  have h2 := congrArg digitsVal h
  rwa [digitsVal_digitChars, digitsVal_digitChars] at h2

/-- Every character of a printed natural is a decimal digit. -/
lemma digitChars_digits (n : Nat) : ∀ c ∈ digitChars n, 48 ≤ c.toNat ∧ c.toNat ≤ 57 := by
  induction n using Nat.strong_induction_on with
  | _ n ih =>
    rw [digitChars_eq]
    by_cases hn : n < 10
    · rw [if_pos hn]
      intro c hc
      rw [List.mem_singleton] at hc
      subst hc
      rw [char_toNat_digit n hn]
      omega
    · have hd : n / 10 < n := Nat.div_lt_self (by omega) (by omega)
      rw [if_neg hn]
      intro c hc
      rcases List.mem_append.mp hc with h1 | h2
      · exact ih (n / 10) hd c h1
      · rw [List.mem_singleton] at h2
        subst h2
        rw [char_toNat_digit (n % 10) (by omega)]
        omega

/-- A printed natural is never the empty string. -/
lemma digitChars_ne_nil (n : Nat) : digitChars n ≠ [] := by
  rw [digitChars_eq]
  by_cases hn : n < 10 <;> simp [hn]

/-- Characters of a printed integer: a minus sign or a digit. -/
lemma intChars_chars (i : Int) :
    ∀ c ∈ intChars i, c.toNat = 45 ∨ (48 ≤ c.toNat ∧ c.toNat ≤ 57) := by
  intro c hc
  unfold intChars at hc
  by_cases hi : i < 0
  · rw [if_pos hi] at hc
    rcases List.mem_cons.mp hc with h | h
    · subst h; left; rfl
    · right; exact digitChars_digits _ c h
  · rw [if_neg hi] at hc
    right; exact digitChars_digits _ c hc

/-- Decimal printing of integers is injective. -/
lemma intChars_inj {i j : Int} (h : intChars i = intChars j) : i = j := by
  unfold intChars at h
  by_cases hi : i < 0 <;> by_cases hj : j < 0
  · rw [if_pos hi, if_pos hj] at h
    injection h with _ h2
    have := digitChars_inj h2
    omega
  · rw [if_pos hi, if_neg hj] at h
    exfalso
    obtain ⟨c, cs, hc⟩ : ∃ c cs, digitChars j.natAbs = c :: cs := by
      cases hd : digitChars j.natAbs with
      | nil => exact absurd hd (digitChars_ne_nil _)
      | cons c cs => exact ⟨c, cs, rfl⟩
    rw [hc] at h
    injection h with h1 _
    have hdg := digitChars_digits j.natAbs c (by rw [hc]; exact List.mem_cons_self c cs)
    rw [← h1] at hdg
    have h45 : ('-').toNat = 45 := rfl
    omega
  · rw [if_neg hi, if_pos hj] at h
    exfalso
    obtain ⟨c, cs, hc⟩ : ∃ c cs, digitChars i.natAbs = c :: cs := by
      cases hd : digitChars i.natAbs with
      | nil => exact absurd hd (digitChars_ne_nil _)
      | cons c cs => exact ⟨c, cs, rfl⟩
    rw [hc] at h
    injection h with h1 _
    have hdg := digitChars_digits i.natAbs c (by rw [hc]; exact List.mem_cons_self c cs)
    rw [h1] at hdg
    have h45 : ('-').toNat = 45 := rfl
    omega
  · rw [if_neg hi, if_neg hj] at h
    have := digitChars_inj h
    omega

/-- Cancellation around the first occurrence of a separator character that
occurs in neither left part. -/
lemma sepCancel (sep : Char) : ∀ (xs ys r1 r2 : List Char),
    sep ∉ xs → sep ∉ ys → xs ++ sep :: r1 = ys ++ sep :: r2 → xs = ys ∧ r1 = r2 := by
  intro xs
  induction xs with
  | nil =>
    intro ys r1 r2 _ hy h
    cases ys with
    | nil =>
      simp only [List.nil_append] at h
      injection h with _ h2
      exact ⟨rfl, h2⟩
    | cons c cs =>
      simp only [List.nil_append, List.cons_append] at h
      injection h with h1 _
      exact absurd (h1 ▸ List.mem_cons_self c cs) hy
  | cons x xs ih =>
    intro ys r1 r2 hx hy h
    cases ys with
    | nil =>
      simp only [List.cons_append, List.nil_append] at h
      injection h with h1 _
      exact absurd (h1 ▸ List.mem_cons_self x xs) hx
    | cons c cs =>
      simp only [List.cons_append] at h
      injection h with h1 h2
      have hx2 : sep ∉ xs := fun hm => hx (List.mem_cons_of_mem _ hm)
      have hy2 : sep ∉ cs := fun hm => hy (List.mem_cons_of_mem _ hm)
      obtain ⟨hxy, hr⟩ := ih cs r1 r2 hx2 hy2 h2
      exact ⟨by rw [h1, hxy], hr⟩

/-- `JSON.stringify` of a boolean contains no comma. -/
lemma boolChars_noComma (b : Bool) : ',' ∉ boolChars b := by cases b <;> decide

/-- `JSON.stringify` of a boolean contains no closing brace. -/
lemma boolChars_noBrace (b : Bool) : '}' ∉ boolChars b := by cases b <;> decide

/-- A printed integer contains no comma. -/
lemma intChars_noComma (i : Int) : ',' ∉ intChars i := by
  intro h
  have h44 : (',').toNat = 44 := rfl
  rcases intChars_chars i ',' h with h1 | ⟨h1, h2⟩ <;> omega

/-- `JSON.stringify` of booleans is injective. -/
lemma boolChars_inj {a b : Bool} (h : boolChars a = boolChars b) : a = b := by
  cases a <;> cases b <;> simp_all [boolChars]

/-- `JSON.stringify` on `States` objects is injective: equal renderings mean
structurally equal snapshots. -/
lemma stringifyStates_inj {s1 s2 : States}
    (h : stringifyStates s1 = stringifyStates s2) : s1 = s2 := by
  obtain ⟨p1, sh1, rm1, v1, a1⟩ := s1
  obtain ⟨p2, sh2, rm2, v2, a2⟩ := s2
  have h0 : stringifyStatesChars ⟨p1, sh1, rm1, v1, a1⟩ =
      stringifyStatesChars ⟨p2, sh2, rm2, v2, a2⟩ := congrArg String.data h
  unfold stringifyStatesChars at h0
  dsimp only at h0
  simp only [List.append_assoc] at h0
  replace h0 := List.append_cancel_left h0
  simp only [List.cons_append, List.nil_append] at h0
  obtain ⟨he1, h1⟩ := sepCancel ',' _ _ _ _ (boolChars_noComma p1) (boolChars_noComma p2) h0
  simp only [List.cons.injEq, eq_self_iff_true, true_and] at h1
  obtain ⟨he2, h2⟩ := sepCancel ',' _ _ _ _ (boolChars_noComma sh1) (boolChars_noComma sh2) h1
  simp only [List.cons.injEq, eq_self_iff_true, true_and] at h2
  obtain ⟨he3, h3⟩ := sepCancel ',' _ _ _ _ (intChars_noComma rm1) (intChars_noComma rm2) h2
  simp only [List.cons.injEq, eq_self_iff_true, true_and] at h3
  obtain ⟨he4, h4⟩ := sepCancel ',' _ _ _ _ (intChars_noComma v1) (intChars_noComma v2) h3
  simp only [List.cons.injEq, eq_self_iff_true, true_and] at h4
  obtain ⟨he5, _⟩ := sepCancel '}' _ _ _ _ (boolChars_noBrace a1) (boolChars_noBrace a2) h4
  rw [boolChars_inj he1, boolChars_inj he2, intChars_inj he3, intChars_inj he4,
    boolChars_inj he5]

/-- The stringify-comparison of the handler agrees with structural
inequality against the cached snapshot. -/
lemma statCondB_iff (st : SessionState) (ns : States) :
    statCondB st ns = true ↔ st.states ≠ some ns := by
  unfold statCondB stringifyOptStates
  cases hs : st.states with
  | none => simp [hs, bne]
  | some s =>
    simp only [bne_iff_ne, ne_eq, Option.some.injEq]
    constructor
    · intro hne heq; exact hne (by rw [heq])
    · intro hne heq; exact hne (stringifyStates_inj heq)

/-- The handler's song-novelty test in propositional form. -/
lemma songCondB_iff (st : SessionState) (ns : Song) :
    songCondB st ns = true ↔
      (st.currentSong = none ∨ ∃ cs, st.currentSong = some cs ∧ cs.id ≠ ns.id) := by
  unfold songCondB
  cases hs : st.currentSong with
  | none => simp
  | some cs => simp [bne_iff_ne]

/-- The JavaScript duration test in propositional form. -/
lemma durGt0_iff (o : Option Int) :
    durGt0 o = true ↔ ∃ n, o = some n ∧ 0 < n := by
  cases o <;> simp [durGt0]

/-- Evaluation of `handleMessage` on a `playbackStateUpdate` frame whose
`Song` decodes. -/
lemma handleMessage_psu (f : Frame) (st : SessionState) (ns : Song)
    (hty : f.type = "playbackStateUpdate") (hs : mkSong f.payload = Except.ok ns) :
    handleMessage (some f) st = Except.ok
      (⟨if songCondB st ns then some ns else st.currentSong,
        if statCondB st (mkStates f.payload) then some (mkStates f.payload) else st.states⟩,
        [Event.raw f.type] ++
          (if songCondB st ns then
            (if durGt0 ns.duration then [Event.songUpdate ns] else [])
          else []) ++
          (if statCondB st (mkStates f.payload) then
            [Event.statesUpdate (mkStates f.payload)] else []) ++
          [Event.playbackUpdate (mkPlaybackData f.payload)]) := by
  unfold handleMessage
  dsimp only
  rw [if_pos hty, hs]

/-! ## Claim theorems -/

/-- C1 (counterexample): at the concrete initial session, an inbound frame
whose text cannot be parsed as JSON makes `handleMessage` raise — the
SyntaxError thrown by `JSON.parse` escapes the handler, refuting the claim
that the frame is dropped without throwing. -/
theorem handleMessage_unparseable_cex :
    handleMessage none initialSession = Except.error JSThrown.jsonSyntaxError := rfl

/-- C1 (amended): for every session state, a frame whose text cannot be
parsed as JSON makes `handleMessage` propagate the parse exception uncaught;
no raw passthrough event is published and the failure is not confined to the
frame. -/
theorem handleMessage_unparseable_throws (st : SessionState) :
    handleMessage none st = Except.error JSThrown.jsonSyntaxError := rfl

/-- C2 (counterexample): a payload carrying artwork but no `songId`, whose
`url` is a string in which `i=[0-9]+` does not match, makes the `Song`
constructor throw a TypeError (indexing the `null` returned by `exec`)
instead of yielding an empty identifier without raising. -/
theorem song_id_fallback_cex :
    mkSong payloadNoMatch = Except.error JSThrown.typeErrorNull := by decide

/-- C2 (amended): for payloads whose artwork decodes, the `Song` constructor
performs the regex extraction only when no truthy `songId` is present: a
truthy `songId` is used directly; a falsy `songId` with a non-string `url`
yields the empty identifier without raising; but with a string `url` the
extraction runs and the constructor throws a TypeError when the pattern does
not match (and yields the match stripped of `i=` when it does). -/
theorem song_id_fallback (d : Payload) (a : Artwork) (u : String)
    (hart : d.artwork = some a) (hau : a.url = some u) :
    (∀ s, d.songId = some s → s ≠ "" →
      ∃ song, mkSong d = Except.ok song ∧ song.id = s) ∧
    ((∀ s, d.songId ≠ some s ∨ s = "") → (∀ s, d.url ≠ JSUrl.str s) →
      ∃ song, mkSong d = Except.ok song ∧ song.id = "") ∧
    (∀ s, truthyStr d.songId = false → d.url = JSUrl.str s → execI s.data = none →
      mkSong d = Except.error JSThrown.typeErrorNull) ∧
    (∀ s m, truthyStr d.songId = false → d.url = JSUrl.str s → execI s.data = some m →
      ∃ song, mkSong d = Except.ok song ∧
        song.id = String.mk (replaceFirst m ['i', '='] [])) := by
  have hawk : ∀ idVal, songIdField d = Except.ok idVal →
      mkSong d = Except.ok ⟨d.name, d.artistName, d.albumName,
        jsReplaceFirst (jsReplaceFirst u "\x7bw\x7d" (jsStringOfOptInt a.width))
          "\x7bh\x7d" (jsStringOfOptInt a.height),
        d.trackNumber, songUrlField d.url, idVal, d.durationInMillis, d.genreNames⟩ := by
    intro idVal hid
    simp [mkSong, hart, hau, hid]
  refine ⟨?_, ?_, ?_, ?_⟩
  · intro s hs hne
    exact ⟨_, hawk s (by simp [songIdField, truthyStr, hs, hne]), rfl⟩
  · intro hid hurl
    have ht : truthyStr d.songId = false := by
      cases hsid : d.songId with
      | none => simp [truthyStr]
      | some s =>
        rcases hid s with h | h
        · exact absurd hsid h
        · simp [truthyStr, hsid, h]
    have hfid : songIdField d = Except.ok "" := by
      cases hu : d.url with
      | str s => exact absurd hu (hurl s)
      | undef => simp [songIdField, ht, hu]
      | null => simp [songIdField, ht, hu]
      | obj am => simp [songIdField, ht, hu]
    exact ⟨_, hawk "" hfid, rfl⟩
  · intro s ht hu he
    simp [mkSong, hart, hau, songIdField, ht, hu, he]
  · intro s m ht hu hm
    exact ⟨_, hawk _ (by simp [songIdField, ht, hu, hm]), rfl⟩

/-- C2 witness: `song_id_fallback` instantiated at `payloadId111`, whose
explicit identifier `"111"` is used without extraction. -/
theorem song_id_fallback_witness :
    (payloadId111.artwork =
      some ⟨some "https://art/\x7bw\x7dx\x7bh\x7d.jpg", some 300, some 300⟩) ∧
    (∃ song, mkSong payloadId111 = Except.ok song ∧ song.id = "111") :=
  ⟨by decide,
    (song_id_fallback payloadId111
      ⟨some "https://art/\x7bw\x7dx\x7bh\x7d.jpg", some 300, some 300⟩
      "https://art/\x7bw\x7dx\x7bh\x7d.jpg" (by decide) (by decide)).1 "111"
      (by decide) (by decide)⟩

/-- C3 (confirmed): for a `playbackStateUpdate` frame whose `Song` decodes,
a `songUpdate` event fires iff (no previous track is cached, or the decoded
identifier differs from the cached one) and the decoded duration is strictly
positive; in particular a frame with the cached identifier, or a
non-positive (or absent) duration, fires none. -/
theorem songUpdate_fires_iff (f : Frame) (st st2 : SessionState) (evs : List Event)
    (ns : Song)
    (hty : f.type = "playbackStateUpdate")
    (hs : mkSong f.payload = Except.ok ns)
    (hr : handleMessage (some f) st = Except.ok (st2, evs)) :
    (∃ x, Event.songUpdate x ∈ evs) ↔
      ((st.currentSong = none ∨ ∃ cs, st.currentSong = some cs ∧ cs.id ≠ ns.id) ∧
        ∃ dur, ns.duration = some dur ∧ 0 < dur) := by
  rw [handleMessage_psu f st ns hty hs] at hr
  injection hr with hr
  injection hr with hst hevs
  subst hevs
  rw [← songCondB_iff st ns, ← durGt0_iff ns.duration]
  by_cases h1 : songCondB st ns <;> by_cases h2 : durGt0 ns.duration <;>
    by_cases h3 : statCondB st (mkStates f.payload) <;>
      simp [h1, h2, h3]

/-- C3 witness: `songUpdate_fires_iff` at `frameOf payloadId111` handled from
the initial session, where the event does fire. -/
theorem songUpdate_fires_iff_witness :
    (∃ x, Event.songUpdate x ∈ evsAfter111) ↔
      ((initialSession.currentSong = none ∨
          ∃ cs, initialSession.currentSong = some cs ∧
            cs.id ≠ (sampleSong "111" (some 200000)).id) ∧
        ∃ dur, (sampleSong "111" (some 200000)).duration = some dur ∧ 0 < dur) :=
  songUpdate_fires_iff (frameOf payloadId111) initialSession sessionAfter111 evsAfter111
    (sampleSong "111" (some 200000)) rfl (by decide) (by decide)

/-- C4 (confirmed): a `statesUpdate` event fires iff the decoded `States`
differs structurally from the cached snapshot; and for two consecutive
frames decoding to identical `States` handled from a fresh session, exactly
one `statesUpdate` fires — for the first — and the second is suppressed. -/
theorem statesUpdate_dedup :
    (∀ (f : Frame) (st st2 : SessionState) (evs : List Event) (ns : Song),
      f.type = "playbackStateUpdate" →
      mkSong f.payload = Except.ok ns →
      handleMessage (some f) st = Except.ok (st2, evs) →
      ((∃ x, Event.statesUpdate x ∈ evs) ↔ st.states ≠ some (mkStates f.payload))) ∧
    (∀ (f1 f2 : Frame) (st1 st2 : SessionState) (evs1 evs2 : List Event) (ns1 ns2 : Song),
      f1.type = "playbackStateUpdate" → f2.type = "playbackStateUpdate" →
      mkSong f1.payload = Except.ok ns1 → mkSong f2.payload = Except.ok ns2 →
      mkStates f1.payload = mkStates f2.payload →
      handleMessage (some f1) initialSession = Except.ok (st1, evs1) →
      handleMessage (some f2) st1 = Except.ok (st2, evs2) →
      ((∃ x, Event.statesUpdate x ∈ evs1) ∧ ¬∃ x, Event.statesUpdate x ∈ evs2)) := by
  have main : ∀ (f : Frame) (st st2 : SessionState) (evs : List Event) (ns : Song),
      f.type = "playbackStateUpdate" →
      mkSong f.payload = Except.ok ns →
      handleMessage (some f) st = Except.ok (st2, evs) →
      ((∃ x, Event.statesUpdate x ∈ evs) ↔ st.states ≠ some (mkStates f.payload)) := by
    intro f st st2 evs ns hty hs hr
    rw [handleMessage_psu f st ns hty hs] at hr
    injection hr with hr
    injection hr with hst hevs
    subst hevs
    rw [← statCondB_iff st (mkStates f.payload)]
    by_cases h1 : songCondB st ns <;> by_cases h2 : durGt0 ns.duration <;>
      by_cases h3 : statCondB st (mkStates f.payload) <;> simp [h1, h2, h3]
  have stAfter : ∀ (f : Frame) (st st2 : SessionState) (evs : List Event) (ns : Song),
      f.type = "playbackStateUpdate" →
      mkSong f.payload = Except.ok ns →
      handleMessage (some f) st = Except.ok (st2, evs) →
      statCondB st (mkStates f.payload) = true →
      st2.states = some (mkStates f.payload) := by
    intro f st st2 evs ns hty hs hr hcond
    rw [handleMessage_psu f st ns hty hs] at hr
    injection hr with hr
    injection hr with hst hevs
    rw [← hst]
    simp [hcond]
  constructor
  · exact main
  · intro f1 f2 st1 st2 evs1 evs2 ns1 ns2 hty1 hty2 hs1 hs2 hstat hr1 hr2
    have hcond1 : statCondB initialSession (mkStates f1.payload) = true := by
      rw [statCondB_iff]
      simp [initialSession]
    have hst1 : st1.states = some (mkStates f1.payload) :=
      stAfter f1 initialSession st1 evs1 ns1 hty1 hs1 hr1 hcond1
    constructor
    · exact (main f1 initialSession st1 evs1 ns1 hty1 hs1 hr1).mpr (by simp [initialSession])
    · intro hex
      have hne := (main f2 st1 st2 evs2 ns2 hty2 hs2 hr2).mp hex
      apply hne
      rw [hst1, hstat]

/-- C4 witness: `statesUpdate_dedup` at the two sample frames `payloadId111`
and `payloadId222`, which decode to identical `States`: the first fires the
event, the second is suppressed. -/
theorem statesUpdate_dedup_witness :
    (∃ x, Event.statesUpdate x ∈ evsAfter111) ∧
    ¬∃ x, Event.statesUpdate x ∈ evsAfter222 :=
  statesUpdate_dedup.2 (frameOf payloadId111) (frameOf payloadId222) sessionAfter111
    sessionAfter222 evsAfter111 evsAfter222 (sampleSong "111" (some 200000))
    (sampleSong "222" (some 200000)) rfl rfl (by decide) (by decide) (by decide)
    (by decide) (by decide)

/-- C5 (counterexample): `setRepeat` to target mode 0 while the connection is
open issues a single direct `set-repeat` envelope and zero cycle (`repeat`)
commands — not the one cycle command the claim requires for the wraparound
from mode 2 (the current mode is not even consulted); a cycle command is what
`cycleRepeat` sends. -/
theorem setRepeat_cycle_cex :
    setRepeat 1 0 = Except.ok [OutMsg.mk "set-repeat" none (some 0)] ∧
    cycleCommandCount [OutMsg.mk "set-repeat" none (some 0)] = 0 ∧
    cycleCommandCount [OutMsg.mk "set-repeat" none (some 0)] ≠ 1 ∧
    cycleRepeat 1 = Except.ok [mkMsg "repeat"] ∧
    cycleCommandCount [mkMsg "repeat"] = 1 := by decide

/-- C5 (amended): for every in-range target mode, `setRepeat` reads no
current state and issues exactly one direct `set-repeat` command carrying the
target mode — zero cycle commands, from any current mode. -/
theorem setRepeat_direct_send (mode : Int) (h : 0 ≤ mode ∧ mode ≤ 2) :
    setRepeat 1 mode = Except.ok [OutMsg.mk "set-repeat" none (some mode)] ∧
    cycleCommandCount [OutMsg.mk "set-repeat" none (some mode)] = 0 := by
  constructor
  · simp [setRepeat, connectionCheck, paramCheckRange, h.1, h.2, Int.emod_one]
  · simp [cycleCommandCount, List.filter]

/-- C5 witness: `setRepeat_direct_send` at target mode 2. -/
theorem setRepeat_direct_send_witness :
    ((0:Int) ≤ 2 ∧ (2:Int) ≤ 2) ∧
    (setRepeat 1 2 = Except.ok [OutMsg.mk "set-repeat" none (some 2)] ∧
     cycleCommandCount [OutMsg.mk "set-repeat" none (some 2)] = 0) :=
  ⟨by decide, setRepeat_direct_send 2 (by decide)⟩

/-- C6 (code bug): a command invoked while the socket is not open throws
before any send, but only for readyState 3 (CLOSED) is the thrown value the
intended connection-state error; for readyState 0 (CONNECTING) and
2 (CLOSING) the missing `break`s in the `WebsocketConnectionError` switch
make the constructor call `super` twice, so a ReferenceError is thrown
instead of the connection-state error the claim requires. -/
theorem command_not_open_bug :
    quit 0 = Except.error JSThrown.superCalledTwice ∧
    quit 2 = Except.error JSThrown.superCalledTwice ∧
    quit 3 = Except.error (JSThrown.websocketConnectionError
      "Websocket has been closed or failed to connect") := by decide

/-- C7 (counterexample): with one outstanding `getQueue` waiter registered,
the close handler emits only the raw close event — the waiter stays in the
registry and no rejection event is produced, refuting the claim that
outstanding waiters are rejected on close. -/
theorem onclose_leaves_waiters_cex :
    getQueueCall 1 ⟨[]⟩ = Except.ok (⟨["queue"]⟩, [mkMsg "get-queue"]) ∧
    oncloseHandler ⟨["queue"]⟩ = (⟨["queue"]⟩, [Event.raw "close"]) ∧
    Event.waiterRejected "queue" ∉ (oncloseHandler ⟨["queue"]⟩).2 := by decide

/-- C7 (amended): for every waiter registry, closing the connection emits
exactly the raw close event and leaves every outstanding waiter pending —
none is rejected. -/
theorem onclose_leaves_waiters (w : WaiterReg) :
    oncloseHandler w = (w, [Event.raw "close"]) := rfl

/-- C8 (confirmed): `seek(125, false)` encodes a payload whose numeric data
field is 125, and `seek(125000, true)` divides the millisecond input down to
the same 125. -/
theorem seek_round_trip :
    seek 1 125 false = Except.ok [OutMsg.mk "seek" (some 125) none] ∧
    seek 1 125000 true = Except.ok [OutMsg.mk "seek" (some 125) none] := by decide

/-- C9 (confirmed): `getLyrics` flattens the lyric lines by trimming,
dropping blank lines and lines beginning with the `lrc` metadata marker, and
joining each kept line with a trailing newline; on the sample response it
returns exactly `"Hello\nWorld\n"`. -/
theorem getLyrics_flattening :
    (∀ lyrics : List LyricLine,
      getLyricsText lyrics =
        String.join (((lyrics.map (fun l => jsTrim l.line)).filter
          (fun line => !(jsStartsWith line "lrc" || line == ""))).map
            (fun line => line ++ "\n"))) ∧
    getLyricsText [⟨none, none, "lrc: credits", none⟩, ⟨none, none, "", none⟩,
      ⟨none, none, "Hello", none⟩, ⟨none, none, "World", none⟩] = "Hello\nWorld\n" := by
  constructor
  · intro lyrics
    have h := getLyricsText_go lyrics ""
    simpa [getLyricsText] using h
  · decide

/-- C10 (confirmed): a `playbackStateUpdate` frame whose decoded identifier
differs from the cache but whose duration is not strictly positive still
replaces the cached current song while firing no `songUpdate`; a later frame
with the same identifier and a strictly positive duration then fires no
`songUpdate` either. -/
theorem stale_cache_suppresses_songUpdate
    (st st1 st2 : SessionState) (f1 f2 : Frame) (cs ns1 ns2 : Song)
    (evs1 evs2 : List Event)
    (hty1 : f1.type = "playbackStateUpdate") (hty2 : f2.type = "playbackStateUpdate")
    (hcs : st.currentSong = some cs)
    (hs1 : mkSong f1.payload = Except.ok ns1)
    (hid1 : cs.id ≠ ns1.id)
    (hdur1 : durGt0 ns1.duration = false)
    (hr1 : handleMessage (some f1) st = Except.ok (st1, evs1))
    (hs2 : mkSong f2.payload = Except.ok ns2)
    (hid2 : ns2.id = ns1.id)
    (hdur2 : durGt0 ns2.duration = true)
    (hr2 : handleMessage (some f2) st1 = Except.ok (st2, evs2)) :
    st1.currentSong = some ns1 ∧
    (¬∃ x, Event.songUpdate x ∈ evs1) ∧
    (¬∃ x, Event.songUpdate x ∈ evs2) := by
  have hcond1 : songCondB st ns1 = true := by
    unfold songCondB
    rw [hcs]
    exact bne_iff_ne.mpr hid1
  rw [handleMessage_psu f1 st ns1 hty1 hs1] at hr1
  injection hr1 with hr1
  injection hr1 with hpair1 hevs1
  have hst1 : st1.currentSong = some ns1 := by
    rw [← hpair1]
    simp [hcond1]
  refine ⟨hst1, ?_, ?_⟩
  · subst hevs1
    by_cases h3 : statCondB st (mkStates f1.payload) <;> simp [hcond1, hdur1, h3]
  · have hcond2 : songCondB st1 ns2 = false := by
      unfold songCondB
      rw [hst1]
      simp [hid2]
    rw [handleMessage_psu f2 st1 ns2 hty2 hs2] at hr2
    injection hr2 with hr2
    injection hr2 with hpair2 hevs2
    subst hevs2
    by_cases h3 : statCondB st1 (mkStates f2.payload) <;> simp [hcond2, h3]

/-- C10 witness: from the session caching song `"111"`, the zero-duration
frame for `"222"` silently replaces the cache, and the following positive
duration frame for `"222"` still fires no song event. -/
theorem stale_cache_suppresses_songUpdate_witness :
    sessionStale.currentSong = some (sampleSong "222" (some 0)) ∧
    (¬∃ x, Event.songUpdate x ∈ evsStale1) ∧
    (¬∃ x, Event.songUpdate x ∈ evsStale2) :=
  stale_cache_suppresses_songUpdate sessionAfter111 sessionStale sessionStale
    (frameOf payloadId222Dur0) (frameOf payloadId222)
    (sampleSong "111" (some 200000)) (sampleSong "222" (some 0))
    (sampleSong "222" (some 200000)) evsStale1 evsStale2
    rfl rfl (by decide) (by decide) (by decide) (by decide) (by decide)
    (by decide) (by decide) (by decide) (by decide)

end CiderWS
